import Mathlib

/-
  Verification of the claude-observer hook layer (src/hooks/hook_base.py).

  Shallow embedding conventions:
  - JSON values are modelled by the inductive JValue; Python dicts by
    association lists (PyDict) with first-match lookup, which coincides with
    Python dict semantics on duplicate-free key lists such as those produced
    by json.loads.
  - JSON numbers are modelled as integers; none of the verified properties
    depends on fractional values (the formatters only compare and print).
  - Python library behaviour that the repository calls is modelled explicitly:
    truthiness, str(), slicing, dict.get / item assignment, a faithful subset
    of urllib.parse.urlparse (scheme and hostname extraction), and json.dumps.
    json.loads is abstracted as a parameter of type String to Option JValue
    (none = JSONDecodeError), since the claims are independent of the parser.
  - The network is abstracted as a NetBehavior value describing what the single
    urlopen call of an invocation does; the request actually handed to urlopen
    is recorded so that absence of network I/O is expressible.
  - The input stream is a String of code points, as Python's text-mode
    sys.stdin presents it; stdin.read(n) returns the first n code points.
-/

namespace ClaudeObserver

/-- JSON-compatible values, as produced by json.loads. -/
inductive JValue where
  | null : JValue
  | bool : Bool → JValue
  | num : Int → JValue
  | str : String → JValue
  | arr : List JValue → JValue
  | obj : List (String × JValue) → JValue

/-- A Python dict holding JSON-compatible values. -/
abbrev PyDict := List (String × JValue)

/-- Python truthiness of a JSON-compatible value: None, False, 0, empty
string, empty list and empty dict are falsy, all else truthy. -/
def JValue.truthy : JValue → Bool
  | .null => false
  | .bool b => b
  | .num n => n != 0
  | .str s => s != ""
  | .arr xs => !xs.isEmpty
  | .obj fs => !fs.isEmpty

/-- Truthiness of the result of dict.get with default None: absence is falsy. -/
def truthyO : Option JValue → Bool
  | none => false
  | some v => v.truthy

/-- Python data.get(k): value at the key, or None when absent. -/
def dictGet (d : PyDict) (k : String) : Option JValue :=
  (d.find? (fun kv => kv.1 == k)).map (fun kv => kv.2)

/-- Python data.get(k, dflt). -/
def dictGetD (d : PyDict) (k : String) (dflt : JValue) : JValue :=
  (dictGet d k).getD dflt

/-- Python item assignment d[k] = v: replaces the value at an existing key in
place, otherwise appends the new entry at the end (insertion order). -/
def dictSet : PyDict → String → JValue → PyDict
  | [], k, v => [(k, v)]
  | (k₀, v₀) :: rest, k, v =>
      if k₀ == k then (k, v) :: rest else (k₀, v₀) :: dictSet rest k v

mutual
/-- Python repr() restricted to JSON-compatible values. String escaping inside
repr of containers is elided; no claim inspects it. -/
def pyRepr : JValue → String
  | .null => "None"
  | .bool true => "True"
  | .bool false => "False"
  | .num n => toString n
  | .str s => "'" ++ s ++ "'"
  | .arr xs => "[" ++ pyReprList xs ++ "]"
  | .obj fs => "\x7b" ++ pyReprFields fs ++ "\x7d"

/-- Comma-separated reprs of list elements. -/
def pyReprList : List JValue → String
  | [] => ""
  | [v] => pyRepr v
  | v :: vs => pyRepr v ++ ", " ++ pyReprList vs

/-- Comma-separated reprs of dict entries. -/
def pyReprFields : List (String × JValue) → String
  | [] => ""
  | [kv] => "'" ++ kv.1 ++ "': " ++ pyRepr kv.2
  | kv :: fs => "'" ++ kv.1 ++ "': " ++ pyRepr kv.2 ++ ", " ++ pyReprFields fs
end

/-- Python str() on JSON-compatible values: identity on strings, repr on
everything else (str and repr agree on None, booleans, numbers, containers). -/
def pyStr : JValue → String
  | .null => "None"
  | .bool true => "True"
  | .bool false => "False"
  | .num n => toString n
  | .str s => s
  | .arr xs => "[" ++ pyReprList xs ++ "]"
  | .obj fs => "\x7b" ++ pyReprFields fs ++ "\x7d"

mutual
/-- json.dumps with default separators. String escaping is elided; no claim
inspects the serialized text of a non-trivial object. -/
def jsonDumps : JValue → String
  | .null => "null"
  | .bool true => "true"
  | .bool false => "false"
  | .num n => toString n
  | .str s => "\"" ++ s ++ "\""
  | .arr xs => "[" ++ jsonDumpsList xs ++ "]"
  | .obj fs => "\x7b" ++ jsonDumpsFields fs ++ "\x7d"

/-- Comma-separated serializations of list elements. -/
def jsonDumpsList : List JValue → String
  | [] => ""
  | [v] => jsonDumps v
  | v :: vs => jsonDumps v ++ ", " ++ jsonDumpsList vs

/-- Comma-separated serializations of dict entries. -/
def jsonDumpsFields : List (String × JValue) → String
  | [] => ""
  | [kv] => "\"" ++ kv.1 ++ "\": " ++ jsonDumps kv.2
  | kv :: fs => "\"" ++ kv.1 ++ "\": " ++ jsonDumps kv.2 ++ ", " ++ jsonDumpsFields fs
end

/-- Python slicing s[:n] on text: the first n code points. -/
def pySlice (s : String) (n : Nat) : String :=
  String.mk (s.toList.take n)

/-- Python stream.read(n) on a text stream: consumes and returns at most the
first n code points. -/
def pyRead (stdin : String) (n : Nat) : String :=
  String.mk (stdin.toList.take n)

/-- Numeric view used by Python comparisons: ints are themselves, booleans
compare as 1 and 0, everything else is not a number. -/
def pyNumVal : JValue → Option Int
  | .num n => some n
  | .bool true => some 1
  | .bool false => some 0
  | _ => none

/-- Python a >= b on JSON-compatible values: defined between numerics and
between strings, a TypeError (modelled as none) otherwise. -/
def pyGE (a b : JValue) : Option Bool :=
  match pyNumVal a, pyNumVal b with
  | some x, some y => some (decide (y ≤ x))
  | _, _ =>
    match a, b with
    | .str s, .str t => some (decide (¬ s < t))
    | _, _ => none

/-- Python a < b on JSON-compatible values, same coverage as pyGE. -/
def pyLT (a b : JValue) : Option Bool :=
  match pyNumVal a, pyNumVal b with
  | some x, some y => some (decide (x < y))
  | _, _ =>
    match a, b with
    | .str s, .str t => some (decide (s < t))
    | _, _ => none

/-! urllib.parse.urlparse, restricted to the two fields the source reads:
scheme and hostname. -/

/-- Characters allowed in a URL scheme after the leading letter. -/
def isSchemeChar (c : Char) : Bool :=
  c.isAlphanum || c == '+' || c == '-' || c == '.'

/-- Splits off the scheme: the text before the first colon is a scheme when it
is non-empty, starts with an ASCII letter and consists of scheme characters;
the scheme is lowercased. Mirrors the scheme logic of urllib.parse.urlsplit. -/
def splitScheme (url : String) : String × String :=
  let cs := url.toList
  match cs.findIdx? (fun c => c == ':') with
  | none => ("", url)
  | some i =>
    let pre := cs.take i
    match pre with
    | [] => ("", url)
    | c :: _ =>
      if c.isAlpha && pre.all isSchemeChar then
        (String.mk (pre.map Char.toLower), String.mk (cs.drop (i + 1)))
      else ("", url)

/-- The netloc: present only when the remainder after the scheme starts with
two slashes, and then runs to the first slash, question mark or hash. -/
def getNetloc (rest : String) : String :=
  match rest.toList with
  | '/' :: '/' :: cs =>
      String.mk (cs.takeWhile (fun c => !(c == '/' || c == '?' || c == '#')))
  | _ => ""

/-- The part of the list after the last occurrence of c; the whole list when
c does not occur. Mirrors the rpartition step of the hostname property. -/
def afterLastChar (c : Char) (cs : List Char) : List Char :=
  (cs.reverse.takeWhile (fun x => x != c)).reverse

/-- The part of the list strictly before the first occurrence of c. -/
def beforeFirstChar (c : Char) (cs : List Char) : List Char :=
  cs.takeWhile (fun x => x != c)

/-- The part of the list strictly after the first occurrence of c. -/
def afterFirstChar (c : Char) (cs : List Char) : List Char :=
  (cs.dropWhile (fun x => x != c)).drop 1

/-- The hostname of a netloc, as urllib computes it: drop userinfo up to the
last at sign; a bracketed IPv6 literal is the text between the brackets,
otherwise the host runs to the first colon; lowercased. The empty hostname
stands for Python's None (the source immediately replaces None by ""). -/
def hostnameOf (netloc : String) : String :=
  let hostinfo := afterLastChar '@' netloc.toList
  let host :=
    if hostinfo.contains '[' then beforeFirstChar ']' (afterFirstChar '[' hostinfo)
    else beforeFirstChar ':' hostinfo
  String.mk (host.map Char.toLower)

/-- Parse result restricted to the fields the source reads. -/
structure ParsedUrl where
  scheme : String
  hostname : String

/-- urllib.parse.urlparse restricted to scheme and hostname. -/
def urlparse (url : String) : ParsedUrl :=
  let sr := splitScheme url
  ⟨sr.1, hostnameOf (getNetloc sr.2)⟩

/-! Constants of hook_base.py. -/

def TIMEOUT : Nat := 30

def MAX_INPUT_SIZE : Nat := 1000000

def MAX_SESSION_ID_LENGTH : Nat := 128

/-- The session-id character class of SESSION_ID_PATTERN; declared in the
source but never applied by the validator. -/
def sessionIdPatternMatches (s : String) : Bool :=
  s != "" && s.toList.all (fun c => c.isAlphanum || c == '-' || c == '_')

/-- validate_service_url from hook_base.py: only allow localhost loopback URLs
to prevent SSRF. The urlparse model is total, so the try/except wrapper of the
source has no effect here. -/
def validate_service_url (url : String) : Bool :=
  let parsed := urlparse url
  if !(parsed.scheme == "http" || parsed.scheme == "https") then false
  else
    let host := parsed.hostname
    host == "localhost" || host == "127.0.0.1" || host == "::1"

/-- First half of validate_hook_input: the session_id checks. The checks run
only when data.get with default empty string yields a truthy value, exactly as
the Python truthiness test does. -/
def check_session_id (data : PyDict) : Option String :=
  let session_id := dictGetD data "session_id" (.str "")
  if session_id.truthy then
    match session_id with
    | .str s =>
        if s.length > MAX_SESSION_ID_LENGTH then some "session_id exceeds maximum length"
        else none
    | _ => some "Invalid session_id type"
  else none

/-- Second half of validate_hook_input: the tool_name checks. A JSON null maps
to Python None, so the is-not-None guard skips it. -/
def check_tool_name (data : PyDict) : Option String :=
  match dictGet data "tool_name" with
  | none => none
  | some .null => none
  | some (.str s) => if s.length > 256 then some "Invalid tool_name" else none
  | some _ => some "Invalid tool_name"

/-- validate_hook_input from hook_base.py: returns an error message or None;
the session_id checks run first and return early on failure. -/
def validate_hook_input (data : PyDict) : Option String :=
  match check_session_id data with
  | some e => some e
  | none => check_tool_name data

/-- How read_hook_input terminates abnormally: a printed message followed by
sys.exit(1) (SystemExit is not an Exception, so it is not caught by run_hook),
or a json.JSONDecodeError that propagates to run_hook's handler. -/
inductive ReadErr where
  | exitErr : String → ReadErr
  | decodeErr : ReadErr

/-- Result of read_hook_input together with the observable effects needed by
the claims: whether the input stream was touched and whether JSON parsing of
the stream was attempted. -/
structure ReadOutcome where
  result : Except ReadErr PyDict
  consumedInput : Bool
  parseAttempted : Bool

/-- read_hook_input from hook_base.py, with json.loads abstracted as parse. -/
def read_hook_input (serviceUrl stdin : String) (parse : String → Option JValue) :
    ReadOutcome :=
  if !validate_service_url serviceUrl then
    ⟨.error (.exitErr "ERROR: Service URL must be a localhost/loopback address"),
     false, false⟩
  else
    let raw := pyRead stdin (MAX_INPUT_SIZE + 1)
    if raw.length > MAX_INPUT_SIZE then
      ⟨.error (.exitErr "ERROR: Input exceeds maximum size of 1000000 bytes"),
       true, false⟩
    else
      match parse raw with
      | none => ⟨.error .decodeErr, true, true⟩
      | some (.obj d) =>
        match validate_hook_input d with
        | some err =>
            ⟨.error (.exitErr ("ERROR: Input validation failed: " ++ err)), true, true⟩
        | none => ⟨.ok d, true, true⟩
      | some _ =>
        ⟨.error (.exitErr "ERROR: Input must be a JSON object"), true, true⟩

/-- The exceptions that can escape the transport call or a formatter and reach
run_hook's handlers. HTTPError is a subclass of URLError in urllib, and the
source lists the URLError handler first, so a raised HTTPError is caught by
the URLError clause; its reason attribute is the HTTP reason phrase, never a
ConnectionRefusedError, so that clause prints the request-failed diagnostic. -/
inductive PyError where
  | jsonDecodeErr : PyError
  | socketTimeout : PyError
  | connectionRefused : PyError
  | urlErrConnRefused : PyError
  | urlErr : String → PyError
  | httpErr : Int → String → PyError
  | runtimeErr : String → PyError
  | typeErr : String → PyError
  | attributeErr : String → PyError

/-- What the single urlopen call of an invocation does: raise one of its
exception kinds, or return a response with a status and a body. -/
inductive NetBehavior where
  | refused : NetBehavior
  | urlRefused : NetBehavior
  | urlOther : String → NetBehavior
  | timeout : NetBehavior
  | httpError : Int → String → NetBehavior
  | ok : Int → String → NetBehavior

/-- The request handed to urlopen. The body is kept structured; at the wire it
is the json.dumps serialization of this object. -/
structure PostRequest where
  url : String
  headers : List (String × String)
  body : PyDict

/-- Verdict or exception from send_to_analyzer, together with the requests it
handed to urlopen (empty exactly when no network I/O was attempted). -/
structure SendResult where
  verdict : Except PyError JValue
  requests : List PostRequest

/-- send_to_analyzer from hook_base.py: builds headers, POSTs the serialized
input to the service URL and decodes the response. It contains no URL check;
its behaviour does not depend on validate_service_url. -/
def send_to_analyzer (serviceUrl apiKey : String) (hook_input : PyDict)
    (parse : String → Option JValue) (net : NetBehavior) : SendResult :=
  let headers :=
    [("Content-Type", "application/json"), ("Accept", "application/json")]
  let headers := if apiKey != "" then headers ++ [("X-Api-Key", apiKey)] else headers
  let req : PostRequest := ⟨serviceUrl, headers, hook_input⟩
  let verdict : Except PyError JValue :=
    match net with
    | .refused => .error .connectionRefused
    | .urlRefused => .error .urlErrConnRefused
    | .urlOther reason => .error (.urlErr reason)
    | .timeout => .error .socketTimeout
    | .httpError code reason => .error (.httpErr code reason)
    | .ok status body =>
      if status != 200 then
        .error (.runtimeErr ("Service error " ++ toString status))
      else
        match parse body with
        | none => .error .jsonDecodeErr
        | some v => .ok v
  ⟨verdict, [req]⟩

/-- format_permission_output from hook_base.py. -/
def format_permission_output (result : PyDict) : JValue :=
  let autoApprove := truthyO (dictGet result "autoApprove")
  let decision : PyDict := [("behavior", .str (if autoApprove then "allow" else "deny"))]
  let decision :=
    if !autoApprove then
      let reasoning := pySlice (pyStr (dictGetD result "reasoning" (.str "Denied"))) 1000
      let msg := "Safety score " ++ pyStr (dictGetD result "safetyScore" (.num 0)) ++
        " below threshold " ++ pyStr (dictGetD result "threshold" (.num 0)) ++
        ". Reason: " ++ reasoning
      let decision := dictSet decision "message" (.str msg)
      if truthyO (dictGet result "interrupt") then
        dictSet decision "interrupt" (.bool true)
      else decision
    else decision
  .obj [("hookSpecificOutput", .obj
    [("hookEventName", .str "PermissionRequest"), ("decision", .obj decision)])]

/-- format_pre_tool_output from hook_base.py. The comparisons use Python
semantics, so an ill-typed safetyScore or threshold raises a TypeError. -/
def format_pre_tool_output (result : PyDict) : Except PyError JValue :=
  let score := dictGetD result "safetyScore" (.num 0)
  let threshold := dictGetD result "threshold" (.num 85)
  match pyGE score threshold with
  | none => .error (.typeErr "unsupported comparison")
  | some ge =>
    let decide₂ :=
      if ge then some "allow"
      else match pyLT score (.num 30) with
        | none => none
        | some lt => some (if lt then "deny" else "ask")
    match decide₂ with
    | none => .error (.typeErr "unsupported comparison")
    | some decision =>
      let hso : PyDict :=
        [("hookEventName", .str "PreToolUse"), ("permissionDecision", .str decision)]
      let hso :=
        if decision != "allow" then
          dictSet hso "permissionDecisionReason"
            (.str (pySlice (pyStr (dictGetD result "reasoning" (.str "Requires review"))) 1000))
        else hso
      .ok (.obj [("hookSpecificOutput", .obj hso)])

/-- format_post_tool_output from hook_base.py. The argument is always a dict
here, so the isinstance guard of the source is satisfied. -/
def format_post_tool_output (result : PyDict) : JValue :=
  let suggestion := dictGet result "suggestion"
  if truthyO suggestion then
    .obj [("hookSpecificOutput", .obj
      [("hookEventName", .str "PostToolUse"),
       ("additionalContext", .str (pySlice (pyStr (dictGetD result "suggestion" .null)) 500))])]
  else .obj []

/-- The formatter an entrypoint passes to run_hook, as a closed set of
variants. format_log_only_output takes no parameters in the source, so calling
it with the verdict argument raises a TypeError. -/
inductive FormatFn where
  | permission : FormatFn
  | preTool : FormatFn
  | postTool : FormatFn
  | logOnly : FormatFn

/-- Applying a formatter to the verdict, Python-call semantics included. -/
def applyFormat : FormatFn → PyDict → Except PyError JValue
  | .permission, r => .ok (format_permission_output r)
  | .preTool, r => format_pre_tool_output r
  | .postTool, r => .ok (format_post_tool_output r)
  | .logOnly, _ =>
      .error (.typeErr "format_log_only_output takes 0 positional arguments but 1 was given")

/-- run_hook's format_fn parameter defaults to None, in which case
format_permission_output is used. -/
def applyFormatOpt : Option FormatFn → PyDict → Except PyError JValue
  | some f, r => applyFormat f r
  | none, r => .ok (format_permission_output r)

/-- Exit code, stdout lines and stderr lines produced by one of run_hook's
exception handlers, in the order the source lists them (URLError before the
unreachable HTTPError clause, then the catch-all). -/
def handleError : PyError → Nat × List String × List String
  | .jsonDecodeErr => (1, [], ["ERROR: Invalid JSON"])
  | .socketTimeout => (1, [], ["ERROR: Analyzer service timed out"])
  | .connectionRefused => (0, [], [])
  | .urlErrConnRefused => (0, [], [])
  | .urlErr reason => (1, [], ["ERROR: Request failed: " ++ reason])
  | .httpErr _ reason => (1, [], ["ERROR: Request failed: " ++ reason])
  | .runtimeErr msg => (1, [], ["ERROR: RuntimeError: " ++ msg])
  | .typeErr msg => (1, [], ["ERROR: TypeError: " ++ msg])
  | .attributeErr msg => (1, [], ["ERROR: AttributeError: " ++ msg])

/-- Observable outcome of one hook invocation: exit code, the lines printed to
stdout and stderr, the requests handed to urlopen, and whether the input
stream was consumed and its JSON parse attempted. -/
structure Outcome where
  exitCode : Nat
  stdout : List String
  stderr : List String
  requests : List PostRequest
  consumedInput : Bool
  parseAttempted : Bool

/-- run_hook from hook_base.py: read and validate input, attach the event
name, call the analyzer, honour passthrough, format, emit, with the source's
exception handlers at the boundary. A non-dict verdict makes the
result.get call raise an AttributeError. -/
def run_hook (serviceUrl apiKey eventName : String) (format_fn : Option FormatFn)
    (stdin : String) (parse : String → Option JValue) (net : NetBehavior) : Outcome :=
  let ro := read_hook_input serviceUrl stdin parse
  match ro.result with
  | .error (.exitErr msg) => ⟨1, [], [msg], [], ro.consumedInput, ro.parseAttempted⟩
  | .error .decodeErr =>
      ⟨1, [], ["ERROR: Invalid JSON"], [], ro.consumedInput, ro.parseAttempted⟩
  | .ok hook_input =>
    let hook_input := dictSet hook_input "hookEventName" (.str eventName)
    let sr := send_to_analyzer serviceUrl apiKey hook_input parse net
    match sr.verdict with
    | .error e =>
      let h := handleError e
      ⟨h.1, h.2.1, h.2.2, sr.requests, ro.consumedInput, ro.parseAttempted⟩
    | .ok (.obj rf) =>
      if truthyO (dictGet rf "passthrough") then
        ⟨0, ["\x7b\x7d"], [], sr.requests, ro.consumedInput, ro.parseAttempted⟩
      else
        match applyFormatOpt format_fn rf with
        | .error e =>
          let h := handleError e
          ⟨h.1, h.2.1, h.2.2, sr.requests, ro.consumedInput, ro.parseAttempted⟩
        | .ok output =>
          ⟨0, if output.truthy then [jsonDumps output] else [], [],
           sr.requests, ro.consumedInput, ro.parseAttempted⟩
    | .ok _ =>
      let h := handleError (.attributeErr "this object has no attribute get")
      ⟨h.1, h.2.1, h.2.2, sr.requests, ro.consumedInput, ro.parseAttempted⟩

/-! Helper lemmas. -/

/-- Field access on an optional JSON value: lookup in an object, none
otherwise. Used to state properties of formatter outputs. -/
def jget : Option JValue → String → Option JValue
  | some (.obj fs), k => dictGet fs k
  | _, _ => none

/-- The hypothesis shape for a numeric verdict field with a default: either
the key is absent and the value is the default, or it is present as a number. -/
def numField (d : PyDict) (k : String) (dflt n : Int) : Prop :=
  (dictGet d k = none ∧ n = dflt) ∨ dictGet d k = some (.num n)

theorem length_mk (cs : List Char) : (String.mk cs).length = cs.length := rfl

theorem length_pySlice_le (s : String) (n : Nat) : (pySlice s n).length ≤ n := by
  simp [pySlice, length_mk]

theorem length_pyRead (s : String) (n : Nat) : (pyRead s n).length = min n s.length := by
  simp [pyRead, length_mk, List.length_take]

theorem pyRead_of_le (s : String) (n : Nat) (h : s.length ≤ n) : pyRead s n = s := by
  have h₀ : s.data.length ≤ n := h
  calc String.mk (s.toList.take n) = String.mk s.data := by
        rw [show s.toList = s.data from rfl, List.take_of_length_le h₀]
    _ = s := rfl

theorem dictGet_nil (k : String) : dictGet [] k = none := rfl

theorem dictGet_cons (k₀ : String) (v₀ : JValue) (rest : PyDict) (k : String) :
    dictGet ((k₀, v₀) :: rest) k = if k₀ == k then some v₀ else dictGet rest k := by
  cases h : (k₀ == k) <;> simp [dictGet, List.find?, h]

theorem dictGet_dictSet_self (d : PyDict) (k : String) (v : JValue) :
    dictGet (dictSet d k v) k = some v := by
  induction d with
  | nil => simp [dictSet, dictGet_cons]
  | cons kv rest ih =>
    obtain ⟨k₀, v₀⟩ := kv
    cases h : (k₀ == k) with
    | true => rw [dictSet, if_pos h]; simp [dictGet_cons]
    | false =>
      rw [dictSet, if_neg (by simp [h]), dictGet_cons]
      simp [h, ih]

theorem dictGet_dictSet_ne (d : PyDict) (k : String) (v : JValue) (key : String)
    (h : key ≠ k) : dictGet (dictSet d k v) key = dictGet d key := by
  have hk : (k == key) = false := by
    simp only [beq_eq_false_iff_ne, ne_eq]
    exact fun hh => h hh.symm
  induction d with
  | nil => simp [dictSet, dictGet_cons, hk, dictGet]
  | cons kv rest ih =>
    obtain ⟨k₀, v₀⟩ := kv
    cases h₀ : (k₀ == k) with
    | true =>
      rw [dictSet, if_pos h₀, dictGet_cons, dictGet_cons]
      have hek : k₀ = k := by simpa using h₀
      rw [hek, hk]
      simp
    | false =>
      rw [dictSet, if_neg (by simp [h₀]), dictGet_cons, dictGet_cons]
      cases h₁ : (k₀ == key) <;> simp [h₁, ih]

theorem dictGetD_of_numField (d : PyDict) (k : String) (dflt n : Int)
    (h : numField d k dflt n) : dictGetD d k (.num dflt) = .num n := by
  rcases h with ⟨h1, h2⟩ | h1
  · simp [dictGetD, h1, h2]
  · simp [dictGetD, h1]

theorem read_parseAttempted_of_fits (u stdin : String) (parse : String → Option JValue)
    (hv : validate_service_url u = true) (hlen : stdin.length ≤ MAX_INPUT_SIZE) :
    (read_hook_input u stdin parse).parseAttempted = true := by
  unfold read_hook_input
  rw [hv]
  simp only [Bool.not_true, Bool.false_eq_true, if_false]
  rw [pyRead_of_le _ _ (Nat.le_trans hlen (Nat.le_succ _))]
  rw [if_neg (by omega)]
  rcases parse stdin with _ | v
  · rfl
  · cases v <;> try rfl
    case obj d => rcases h : validate_hook_input d with _ | e <;> simp [h]

theorem run_hook_parseAttempted (u k ev : String) (fmt : Option FormatFn)
    (stdin : String) (parse : String → Option JValue) (net : NetBehavior) :
    (run_hook u k ev fmt stdin parse net).parseAttempted =
      (read_hook_input u stdin parse).parseAttempted := by
  unfold run_hook
  rcases h : (read_hook_input u stdin parse).result with e | d
  · cases e <;> simp [h]
  · simp only [h]
    split <;> try rfl
    split <;> try rfl
    split <;> rfl

/-- C1: a configured endpoint whose scheme is not http or https, or whose
hostname is not exactly localhost, 127.0.0.1 or ::1, makes every invocation
exit with code 1 before the input stream is touched and with no network I/O. -/
theorem c1_nonloopback_endpoint_blocks (url apiKey eventName : String)
    (fmt : Option FormatFn) (stdin : String) (parse : String → Option JValue)
    (net : NetBehavior)
    (h : (urlparse url).scheme ∉ (["http", "https"] : List String) ∨
         (urlparse url).hostname ∉ (["localhost", "127.0.0.1", "::1"] : List String)) :
    (run_hook url apiKey eventName fmt stdin parse net).exitCode = 1 ∧
    (run_hook url apiKey eventName fmt stdin parse net).consumedInput = false ∧
    (run_hook url apiKey eventName fmt stdin parse net).requests = [] := by
  have hv : validate_service_url url = false := by
    unfold validate_service_url
    rcases h with h | h
    · simp only [List.mem_cons, List.not_mem_nil, or_false, not_or] at h
      obtain ⟨h1, h2⟩ := h
      simp [h1, h2]
    · simp only [List.mem_cons, List.not_mem_nil, or_false, not_or] at h
      obtain ⟨h1, h2, h3⟩ := h
      simp [h1, h2, h3]
  simp [run_hook, read_hook_input, hv]

/-- Witness for C1 at the concrete endpoint http://evil.example.com:5050/api. -/
theorem c1_nonloopback_endpoint_blocks_witness :
    ((urlparse "http://evil.example.com:5050/api").hostname ∉
       (["localhost", "127.0.0.1", "::1"] : List String)) ∧
    (run_hook "http://evil.example.com:5050/api" "" "PreToolUse" (some .preTool)
       "x" (fun _ => some (.obj [])) (.ok 200 "y")).exitCode = 1 ∧
    (run_hook "http://evil.example.com:5050/api" "" "PreToolUse" (some .preTool)
       "x" (fun _ => some (.obj [])) (.ok 200 "y")).consumedInput = false ∧
    (run_hook "http://evil.example.com:5050/api" "" "PreToolUse" (some .preTool)
       "x" (fun _ => some (.obj [])) (.ok 200 "y")).requests = [] := by
  have h : (urlparse "http://evil.example.com:5050/api").hostname ∉
      (["localhost", "127.0.0.1", "::1"] : List String) := by decide
  exact ⟨h, c1_nonloopback_endpoint_blocks "http://evil.example.com:5050/api" ""
    "PreToolUse" (some .preTool) "x" (fun _ => some (.obj [])) (.ok 200 "y") (Or.inr h)⟩

/-- C5 amended: the size cap applies to the decoded text stream: a stream of
more than 1,000,000 code points makes the hook exit with code 1 before JSON
parsing is attempted and with no network call, and a stream of exactly
1,000,000 code points is not rejected for size (parsing proceeds); the byte
count of the stream is never consulted. -/
theorem c5_input_size_cap (url apiKey eventName : String) (fmt : Option FormatFn)
    (stdin : String) (parse : String → Option JValue) (net : NetBehavior) :
    (stdin.length > MAX_INPUT_SIZE →
      (run_hook url apiKey eventName fmt stdin parse net).exitCode = 1 ∧
      (run_hook url apiKey eventName fmt stdin parse net).parseAttempted = false ∧
      (run_hook url apiKey eventName fmt stdin parse net).requests = []) ∧
    (validate_service_url url = true → stdin.length = MAX_INPUT_SIZE →
      (run_hook url apiKey eventName fmt stdin parse net).parseAttempted = true) := by
  constructor
  · intro hlen
    cases hv : validate_service_url url with
    | false => simp [run_hook, read_hook_input, hv]
    | true =>
      have hraw : (pyRead stdin (MAX_INPUT_SIZE + 1)).length = MAX_INPUT_SIZE + 1 := by
        rw [length_pyRead]; omega
      simp [run_hook, read_hook_input, hv, hraw]
  · intro hv hlen
    rw [run_hook_parseAttempted]
    exact read_parseAttempted_of_fits url stdin parse hv (le_of_eq hlen)

/-- Witness for C5 at a concrete over-sized stream of 1,000,001 characters. -/
theorem c5_input_size_cap_witness :
    (String.mk (List.replicate 1000001 'a')).length > MAX_INPUT_SIZE ∧
    (run_hook "http://localhost:5050/api/analyze" "" "PreToolUse" (some .preTool)
       (String.mk (List.replicate 1000001 'a')) (fun _ => none) .refused).exitCode = 1 ∧
    (run_hook "http://localhost:5050/api/analyze" "" "PreToolUse" (some .preTool)
       (String.mk (List.replicate 1000001 'a')) (fun _ => none) .refused).parseAttempted
      = false ∧
    (run_hook "http://localhost:5050/api/analyze" "" "PreToolUse" (some .preTool)
       (String.mk (List.replicate 1000001 'a')) (fun _ => none) .refused).requests = [] := by
  have hlen : (String.mk (List.replicate 1000001 'a')).length > MAX_INPUT_SIZE := by
    rw [length_mk, List.length_replicate]
    norm_num [MAX_INPUT_SIZE]
  exact ⟨hlen, (c5_input_size_cap "http://localhost:5050/api/analyze" "" "PreToolUse"
    (some .preTool) (String.mk (List.replicate 1000001 'a')) (fun _ => none) .refused).1 hlen⟩

theorem append_ne_empty_left (s t : String) (h : s.length ≠ 0) : s ++ t ≠ "" := by
  intro he
  have h₂ := congrArg String.length he
  rw [String.length_append] at h₂
  have h₃ : ("" : String).length = 0 := rfl
  omega

/-- C3: with validated input, a connection-refused transport failure exits 0
with empty stdout and stderr, for every event name and formatter; a timeout or
a non-200 answer (whether urlopen raises an HTTPError or returns a non-200
response) exits 1 with a non-empty diagnostic on stderr. -/
theorem c3_transport_error_policy (u k ev : String) (fmt : Option FormatFn)
    (stdin : String) (parse : String → Option JValue) (d : PyDict)
    (hread : (read_hook_input u stdin parse).result = .ok d) :
    ((run_hook u k ev fmt stdin parse .refused).exitCode = 0 ∧
     (run_hook u k ev fmt stdin parse .refused).stdout = [] ∧
     (run_hook u k ev fmt stdin parse .refused).stderr = []) ∧
    ((run_hook u k ev fmt stdin parse .urlRefused).exitCode = 0 ∧
     (run_hook u k ev fmt stdin parse .urlRefused).stdout = [] ∧
     (run_hook u k ev fmt stdin parse .urlRefused).stderr = []) ∧
    ((run_hook u k ev fmt stdin parse .timeout).exitCode = 1 ∧
     ∃ m, (run_hook u k ev fmt stdin parse .timeout).stderr = [m] ∧ m ≠ "") ∧
    (∀ code reason,
      (run_hook u k ev fmt stdin parse (.httpError code reason)).exitCode = 1 ∧
      ∃ m, (run_hook u k ev fmt stdin parse (.httpError code reason)).stderr = [m] ∧
        m ≠ "") ∧
    (∀ st body, st ≠ 200 →
      (run_hook u k ev fmt stdin parse (.ok st body)).exitCode = 1 ∧
      ∃ m, (run_hook u k ev fmt stdin parse (.ok st body)).stderr = [m] ∧ m ≠ "") := by
  refine ⟨?_, ?_, ?_, ?_, ?_⟩
  · simp [run_hook, hread, send_to_analyzer, handleError]
  · simp [run_hook, hread, send_to_analyzer, handleError]
  · simp [run_hook, hread, send_to_analyzer, handleError]
  · intro code reason
    simp [run_hook, hread, send_to_analyzer, handleError]
    exact append_ne_empty_left _ _ (by decide)
  · intro st body hst
    have hne : (st != 200) = true := by simpa using hst
    simp [run_hook, hread, send_to_analyzer, handleError, hne]
    exact append_ne_empty_left _ _ (by decide)

/-- Witness for C3 with a concrete validated input. -/
theorem c3_transport_error_policy_witness :
    ((run_hook "http://localhost:5050/api/analyze" "" "Stop" (some .logOnly) "x"
       (fun _ => some (.obj [])) .refused).exitCode = 0 ∧
     (run_hook "http://localhost:5050/api/analyze" "" "Stop" (some .logOnly) "x"
       (fun _ => some (.obj [])) .refused).stdout = [] ∧
     (run_hook "http://localhost:5050/api/analyze" "" "Stop" (some .logOnly) "x"
       (fun _ => some (.obj [])) .refused).stderr = []) ∧
    ((run_hook "http://localhost:5050/api/analyze" "" "Stop" (some .logOnly) "x"
       (fun _ => some (.obj [])) .timeout).exitCode = 1 ∧
     ∃ m, (run_hook "http://localhost:5050/api/analyze" "" "Stop" (some .logOnly) "x"
       (fun _ => some (.obj [])) .timeout).stderr = [m] ∧ m ≠ "") := by
  have h := c3_transport_error_policy "http://localhost:5050/api/analyze" "" "Stop"
    (some .logOnly) "x" (fun _ => some (.obj [])) [] rfl
  exact ⟨h.1, h.2.2.1⟩

theorem run_hook_requests_of_read_ok (u k ev : String) (fmt : Option FormatFn)
    (stdin : String) (parse : String → Option JValue) (net : NetBehavior) (d : PyDict)
    (hread : (read_hook_input u stdin parse).result = .ok d) :
    (run_hook u k ev fmt stdin parse net).requests =
      (send_to_analyzer u k (dictSet d "hookEventName" (.str ev)) parse net).requests := by
  unfold run_hook
  simp only [hread]
  split <;> try rfl
  split <;> try rfl
  split <;> rfl

/-- C9: the object handed to the transport is exactly the validated input with
the hookEventName key set to the event name; every other key is unchanged. -/
theorem c9_body_is_input_with_event_name (u k ev : String) (fmt : Option FormatFn)
    (stdin : String) (parse : String → Option JValue) (net : NetBehavior) (d : PyDict)
    (hread : (read_hook_input u stdin parse).result = .ok d) :
    ∃ req, (run_hook u k ev fmt stdin parse net).requests = [req] ∧
      req.url = u ∧
      req.body = dictSet d "hookEventName" (.str ev) ∧
      dictGet req.body "hookEventName" = some (.str ev) ∧
      ∀ key, key ≠ "hookEventName" → dictGet req.body key = dictGet d key := by
  rw [run_hook_requests_of_read_ok u k ev fmt stdin parse net d hread]
  have hb := dictGet_dictSet_self d "hookEventName" (.str ev)
  have hn := fun key hk => dictGet_dictSet_ne d "hookEventName" (.str ev) key hk
  exact ⟨_, rfl, rfl, rfl, hb, hn⟩

/-- Witness for C9 with a concrete validated input carrying one extra key. -/
theorem c9_body_is_input_with_event_name_witness :
    ∃ req, (run_hook "http://localhost:5050/api/analyze" "" "PreToolUse" (some .preTool)
        "x" (fun _ => some (.obj [("tool_name", .str "Bash")])) .refused).requests = [req] ∧
      dictGet req.body "hookEventName" = some (.str "PreToolUse") ∧
      dictGet req.body "tool_name" = some (.str "Bash") := by
  obtain ⟨req, h1, _, _, h4, h5⟩ := c9_body_is_input_with_event_name
    "http://localhost:5050/api/analyze" "" "PreToolUse" (some .preTool) "x"
    (fun _ => some (.obj [("tool_name", .str "Bash")])) .refused
    [("tool_name", .str "Bash")] rfl
  refine ⟨req, h1, h4, ?_⟩
  rw [h5 "tool_name" (by decide)]
  rfl

/-- C8: a verdict with a truthy passthrough field makes the hook print exactly
the empty object and exit 0, whatever the other verdict fields, the event name
and the selected formatter are; the formatter is never invoked. -/
theorem c8_passthrough_short_circuits (u k ev : String) (fmt : Option FormatFn)
    (stdin body : String) (parse : String → Option JValue) (d rf : PyDict)
    (hread : (read_hook_input u stdin parse).result = .ok d)
    (hparse : parse body = some (.obj rf))
    (hpt : truthyO (dictGet rf "passthrough") = true) :
    (run_hook u k ev fmt stdin parse (.ok 200 body)).stdout = ["\x7b\x7d"] ∧
    (run_hook u k ev fmt stdin parse (.ok 200 body)).exitCode = 0 ∧
    (run_hook u k ev fmt stdin parse (.ok 200 body)).stderr = [] := by
  simp [run_hook, hread, send_to_analyzer, hparse, hpt]

/-- Witness for C8: passthrough together with contradictory other fields and
the zero-argument log-only formatter still yields the empty object and exit 0. -/
theorem c8_passthrough_short_circuits_witness :
    (run_hook "http://localhost:5050/api/analyze" "" "Stop" (some .logOnly) "x"
      (fun _ => some (.obj [("passthrough", .bool true), ("safetyScore", .num 1)]))
      (.ok 200 "b")).stdout = ["\x7b\x7d"] ∧
    (run_hook "http://localhost:5050/api/analyze" "" "Stop" (some .logOnly) "x"
      (fun _ => some (.obj [("passthrough", .bool true), ("safetyScore", .num 1)]))
      (.ok 200 "b")).exitCode = 0 := by
  have h := c8_passthrough_short_circuits "http://localhost:5050/api/analyze" "" "Stop"
    (some .logOnly) "x" "b"
    (fun _ => some (.obj [("passthrough", .bool true), ("safetyScore", .num 1)]))
    [("passthrough", .bool true), ("safetyScore", .num 1)]
    [("passthrough", .bool true), ("safetyScore", .num 1)] rfl rfl rfl
  exact ⟨h.1, h.2.1⟩

/-- Counterexample to C2 as stated: on a non-loopback endpoint the transport
client still performs its POST and obtains a verdict; no loopback check takes
place inside send_to_analyzer. -/
theorem c2_reverify_counterexample :
    validate_service_url "http://evil.example.com/api/analyze" = false ∧
    (send_to_analyzer "http://evil.example.com/api/analyze" "" []
      (fun _ => some (.obj [])) (.ok 200 "\x7b\x7d")).requests.length = 1 ∧
    (send_to_analyzer "http://evil.example.com/api/analyze" "" []
      (fun _ => some (.obj [])) (.ok 200 "\x7b\x7d")).verdict = .ok (.obj []) := by
  refine ⟨by decide, rfl, rfl⟩

/-- C2 amended: the loopback property is not re-verified inside the transport
client; it is enforced once per invocation by read_hook_input before the input
stream is read, so every invocation that performs any network I/O has a
validated loopback endpoint. -/
theorem c2_loopback_checked_by_caller (u k ev : String) (fmt : Option FormatFn)
    (stdin : String) (parse : String → Option JValue) (net : NetBehavior)
    (h : (run_hook u k ev fmt stdin parse net).requests ≠ []) :
    validate_service_url u = true := by
  by_cases hv : validate_service_url u = true
  · exact hv
  · exfalso
    have hv₂ : validate_service_url u = false := by simpa using hv
    simp [run_hook, read_hook_input, hv₂] at h

/-- Witness for the amended C2 at a concrete invocation that reaches the
network. -/
theorem c2_loopback_checked_by_caller_witness :
    validate_service_url "http://localhost:5050/api/analyze" = true := by
  have h₁ : (run_hook "http://localhost:5050/api/analyze" "" "Stop" (some .logOnly) "x"
      (fun _ => some (.obj [])) .refused).requests.length = 1 := rfl
  exact c2_loopback_checked_by_caller "http://localhost:5050/api/analyze" "" "Stop"
    (some .logOnly) "x" (fun _ => some (.obj [])) .refused
    (fun he => absurd (by rw [he] at h₁; exact h₁) (by decide))

theorem read_hook_input_of_validated (u stdin : String) (parse : String → Option JValue)
    (d : PyDict) (hv : validate_service_url u = true)
    (hlen : stdin.length ≤ MAX_INPUT_SIZE) (hparse : parse stdin = some (.obj d)) :
    read_hook_input u stdin parse =
      match validate_hook_input d with
      | some err =>
          ⟨.error (.exitErr ("ERROR: Input validation failed: " ++ err)), true, true⟩
      | none => ⟨.ok d, true, true⟩ := by
  unfold read_hook_input
  rw [hv]
  simp only [Bool.not_true, Bool.false_eq_true, if_false]
  rw [pyRead_of_le _ _ (Nat.le_trans hlen (Nat.le_succ _))]
  rw [if_neg (by omega), hparse]

theorem run_hook_of_invalid_input (u k ev : String) (fmt : Option FormatFn)
    (stdin : String) (parse : String → Option JValue) (net : NetBehavior) (d : PyDict)
    (err : String) (hv : validate_service_url u = true)
    (hlen : stdin.length ≤ MAX_INPUT_SIZE) (hparse : parse stdin = some (.obj d))
    (hval : validate_hook_input d = some err) :
    (run_hook u k ev fmt stdin parse net).exitCode = 1 ∧
    (run_hook u k ev fmt stdin parse net).requests = [] := by
  have hread := read_hook_input_of_validated u stdin parse d hv hlen hparse
  rw [hval] at hread
  simp [run_hook, hread]

/-- Counterexample to C6 as stated: the input object with session_id equal to
the number 0 carries a present, non-string session_id, yet the invocation is
accepted: validation returns no error and the hook proceeds to make its
network call and exit 0. -/
theorem c6_session_id_counterexample :
    dictGet [("session_id", JValue.num 0)] "session_id" = some (JValue.num 0) ∧
    validate_hook_input [("session_id", JValue.num 0)] = none ∧
    (run_hook "http://localhost:5050/api/analyze" "" "PreToolUse" (some .preTool) "x"
      (fun s => if s = "\x7b\x7d" then some (.obj [])
                else some (.obj [("session_id", JValue.num 0)]))
      (.ok 200 "\x7b\x7d")).exitCode = 0 ∧
    (run_hook "http://localhost:5050/api/analyze" "" "PreToolUse" (some .preTool) "x"
      (fun s => if s = "\x7b\x7d" then some (.obj [])
                else some (.obj [("session_id", JValue.num 0)]))
      (.ok 200 "\x7b\x7d")).requests.length = 1 := by
  exact ⟨rfl, rfl, rfl, rfl⟩

/-- C6 amended: the session_id checks run only when the field's value is
truthy. A truthy non-string session_id, or a string longer than 128
characters, is rejected with exit code 1 and no network call; a string of at
most 128 characters (hence exactly 128) passes the session checks; a falsy
session_id (0, false, null, empty string, empty containers) skips the session
checks entirely and is accepted by them. -/
theorem c6_session_id_validation (u k ev : String) (fmt : Option FormatFn)
    (stdin : String) (parse : String → Option JValue) (net : NetBehavior) (d : PyDict)
    (hv : validate_service_url u = true)
    (hlen : stdin.length ≤ MAX_INPUT_SIZE)
    (hparse : parse stdin = some (.obj d)) :
    ((∃ v, dictGet d "session_id" = some v ∧ v.truthy = true ∧ ∀ s, v ≠ .str s) →
      (run_hook u k ev fmt stdin parse net).exitCode = 1 ∧
      (run_hook u k ev fmt stdin parse net).requests = []) ∧
    (∀ s : String, dictGet d "session_id" = some (.str s) →
      s.length > MAX_SESSION_ID_LENGTH →
      (run_hook u k ev fmt stdin parse net).exitCode = 1 ∧
      (run_hook u k ev fmt stdin parse net).requests = []) ∧
    (∀ s : String, dictGet d "session_id" = some (.str s) →
      s.length ≤ MAX_SESSION_ID_LENGTH → check_session_id d = none) ∧
    ((∃ v, dictGet d "session_id" = some v ∧ v.truthy = false) →
      validate_hook_input d = check_tool_name d) := by
  refine ⟨?_, ?_, ?_, ?_⟩
  · rintro ⟨v, hget, htr, hns⟩
    have hsess : check_session_id d = some "Invalid session_id type" := by
      unfold check_session_id
      rw [show dictGetD d "session_id" (.str "") = v from by simp [dictGetD, hget]]
      simp only [htr, if_true]
    have hval : validate_hook_input d = some "Invalid session_id type" := by
      unfold validate_hook_input
      rw [hsess]
    exact run_hook_of_invalid_input u k ev fmt stdin parse net d _ hv hlen hparse hval
  · intro s hget hslen
    have hne : s ≠ "" := by
      intro he
      rw [he] at hslen
      simp [MAX_SESSION_ID_LENGTH] at hslen
    have hsess : check_session_id d = some "session_id exceeds maximum length" := by
      unfold check_session_id
      rw [show dictGetD d "session_id" (.str "") = .str s from by simp [dictGetD, hget]]
      have htr : (JValue.str s).truthy = true := by simp [JValue.truthy, hne]
      simp only [htr, if_true]
      rw [if_pos hslen]
    have hval : validate_hook_input d = some "session_id exceeds maximum length" := by
      unfold validate_hook_input
      rw [hsess]
    exact run_hook_of_invalid_input u k ev fmt stdin parse net d _ hv hlen hparse hval
  · intro s hget hslen
    unfold check_session_id
    rw [show dictGetD d "session_id" (.str "") = .str s from by simp [dictGetD, hget]]
    by_cases hs : s = ""
    · simp [JValue.truthy, hs]
    · have htr : (JValue.str s).truthy = true := by simp [JValue.truthy, hs]
      simp only [htr, if_true]
      rw [if_neg (by omega)]
  · rintro ⟨v, hget, htr⟩
    unfold validate_hook_input check_session_id
    rw [show dictGetD d "session_id" (.str "") = v from by simp [dictGetD, hget]]
    simp only [htr, Bool.false_eq_true, if_false]

/-- Witness for the amended C6: a 129-character session_id is rejected with
exit 1 and no request; a 128-character one passes the session checks. -/
theorem c6_session_id_validation_witness :
    (run_hook "http://localhost:5050/api/analyze" "" "PreToolUse" (some .preTool) "x"
      (fun _ => some (.obj [("session_id", .str (String.mk (List.replicate 129 'a')))]))
      .refused).exitCode = 1 ∧
    (run_hook "http://localhost:5050/api/analyze" "" "PreToolUse" (some .preTool) "x"
      (fun _ => some (.obj [("session_id", .str (String.mk (List.replicate 129 'a')))]))
      .refused).requests = [] ∧
    check_session_id [("session_id", .str (String.mk (List.replicate 128 'a')))] = none ∧
    (run_hook "http://localhost:5050/api/analyze" "" "PreToolUse" (some .preTool) "x"
      (fun _ => some (.obj [("session_id", JValue.num 5)])) .refused).exitCode = 1 ∧
    (run_hook "http://localhost:5050/api/analyze" "" "PreToolUse" (some .preTool) "x"
      (fun _ => some (.obj [("session_id", JValue.num 5)])) .refused).requests = [] := by
  have h₁ := c6_session_id_validation "http://localhost:5050/api/analyze" "" "PreToolUse"
    (some .preTool) "x"
    (fun _ => some (.obj [("session_id", .str (String.mk (List.replicate 129 'a')))]))
    .refused [("session_id", .str (String.mk (List.replicate 129 'a')))]
    (by decide) (by decide) rfl
  have h₂ := c6_session_id_validation "http://localhost:5050/api/analyze" "" "PreToolUse"
    (some .preTool) "x"
    (fun _ => some (.obj [("session_id", .str (String.mk (List.replicate 128 'a')))]))
    .refused [("session_id", .str (String.mk (List.replicate 128 'a')))]
    (by decide) (by decide) rfl
  have hlen129 : (String.mk (List.replicate 129 'a')).length > MAX_SESSION_ID_LENGTH := by
    rw [length_mk, List.length_replicate]
    norm_num [MAX_SESSION_ID_LENGTH]
  have hlen128 : (String.mk (List.replicate 128 'a')).length ≤ MAX_SESSION_ID_LENGTH := by
    rw [length_mk, List.length_replicate]
    norm_num [MAX_SESSION_ID_LENGTH]
  have h₃ := c6_session_id_validation "http://localhost:5050/api/analyze" "" "PreToolUse"
    (some .preTool) "x" (fun _ => some (.obj [("session_id", JValue.num 5)]))
    .refused [("session_id", JValue.num 5)] (by decide) (by decide) rfl
  obtain ⟨ha, hb⟩ := h₁.2.1 (String.mk (List.replicate 129 'a')) rfl hlen129
  obtain ⟨hc, hd⟩ := h₃.1 ⟨JValue.num 5, rfl, rfl, fun s h => JValue.noConfusion h⟩
  exact ⟨ha, hb, h₂.2.2.1 (String.mk (List.replicate 128 'a')) rfl hlen128, hc, hd⟩

theorem format_pre_tool_characterization (result : PyDict) (score thr : Int)
    (hs : numField result "safetyScore" 0 score) (ht : numField result "threshold" 85 thr) :
    format_pre_tool_output result = .ok (.obj [("hookSpecificOutput", .obj
      (if thr ≤ score then
        [("hookEventName", .str "PreToolUse"), ("permissionDecision", .str "allow")]
       else
        [("hookEventName", .str "PreToolUse"),
         ("permissionDecision", .str (if score < 30 then "deny" else "ask")),
         ("permissionDecisionReason",
          .str (pySlice (pyStr (dictGetD result "reasoning" (.str "Requires review"))) 1000))]))]) := by
  have e₁ := dictGetD_of_numField result "safetyScore" 0 score hs
  have e₂ := dictGetD_of_numField result "threshold" 85 thr ht
  unfold format_pre_tool_output
  rw [e₁, e₂]
  by_cases hc : thr ≤ score
  · rw [if_pos hc]
    simp [pyGE, pyNumVal, hc]
  · rw [if_neg hc]
    by_cases hl : score < 30
    · simp [pyGE, pyNumVal, pyLT, hc, hl, dictSet]
    · simp [pyGE, pyNumVal, pyLT, hc, hl, dictSet]

/-- C4: the PreToolUse formatter decides allow when score is at least the
threshold (defaults 0 and 85), deny when additionally score is below 30, ask
otherwise; non-allow outputs carry a reason of at most 1000 characters, equal
to a string reasoning truncated to its first 1000 characters and defaulting to
Requires review when reasoning is absent; allow outputs carry no reason. -/
theorem c4_pre_tool_three_way (result : PyDict) (score thr : Int)
    (hs : numField result "safetyScore" 0 score) (ht : numField result "threshold" 85 thr) :
    ∃ out, format_pre_tool_output result = .ok out ∧
      jget (jget (some out) "hookSpecificOutput") "permissionDecision" =
        some (.str (if thr ≤ score then "allow" else if score < 30 then "deny" else "ask")) ∧
      (thr ≤ score →
        jget (jget (some out) "hookSpecificOutput") "permissionDecisionReason" = none) ∧
      (¬ thr ≤ score → ∃ r : String,
        jget (jget (some out) "hookSpecificOutput") "permissionDecisionReason" =
          some (.str r) ∧
        r.length ≤ 1000 ∧
        (∀ s, dictGet result "reasoning" = some (.str s) → r = pySlice s 1000) ∧
        (dictGet result "reasoning" = none → r = "Requires review")) := by
  refine ⟨_, format_pre_tool_characterization result score thr hs ht, ?_, ?_, ?_⟩
  · by_cases hc : thr ≤ score
    · simp [hc, jget, dictGet_cons, dictGet_nil]
    · by_cases hl : score < 30 <;> simp [hc, hl, jget, dictGet_cons, dictGet_nil]
  · intro hc
    simp [hc, jget, dictGet_cons, dictGet_nil]
  · intro hc
    refine ⟨pySlice (pyStr (dictGetD result "reasoning" (.str "Requires review"))) 1000,
      ?_, length_pySlice_le _ _, ?_, ?_⟩
    · simp [hc, jget, dictGet_cons, dictGet_nil]
    · intro s hr
      simp [dictGetD, hr, pyStr]
    · intro hr
      rw [show dictGetD result "reasoning" (.str "Requires review")
            = .str "Requires review" from by simp [dictGetD, hr]]
      rfl

/-- Witness for C4: score 10 against the default threshold 85 with a string
reasoning yields deny with that reasoning as the reason. -/
theorem c4_pre_tool_three_way_witness :
    ∃ out, format_pre_tool_output [("safetyScore", .num 10), ("reasoning", .str "bad")]
        = .ok out ∧
      jget (jget (some out) "hookSpecificOutput") "permissionDecision" =
        some (.str "deny") ∧
      jget (jget (some out) "hookSpecificOutput") "permissionDecisionReason" =
        some (.str "bad") := by
  obtain ⟨out, h₁, h₂, _, h₄⟩ := c4_pre_tool_three_way
    [("safetyScore", .num 10), ("reasoning", .str "bad")] 10 85
    (Or.inr rfl) (Or.inl ⟨rfl, rfl⟩)
  obtain ⟨r, hr₁, _, hr₃, _⟩ := h₄ (by omega)
  refine ⟨out, h₁, ?_, ?_⟩
  · rw [h₂]
    norm_num
  · rw [hr₁, hr₃ "bad" rfl]
    rfl

/-- C10: the allow comparison takes precedence over the deny floor: whenever
score is at least the (possibly analyzer-supplied) threshold the decision is
allow, even when score is below 30. -/
theorem c10_allow_beats_deny_floor (result : PyDict) (score thr : Int)
    (hs : numField result "safetyScore" 0 score) (ht : numField result "threshold" 85 thr)
    (h : thr ≤ score) :
    ∃ out, format_pre_tool_output result = .ok out ∧
      jget (jget (some out) "hookSpecificOutput") "permissionDecision" =
        some (.str "allow") := by
  refine ⟨_, format_pre_tool_characterization result score thr hs ht, ?_⟩
  simp [h, jget, dictGet_cons, dictGet_nil]

/-- Witness for C10: analyzer-supplied threshold 10 with score 15 yields allow
although 15 is below the deny floor 30. -/
theorem c10_allow_beats_deny_floor_witness :
    ((15 : Int) < 30) ∧
    ∃ out, format_pre_tool_output [("safetyScore", .num 15), ("threshold", .num 10)]
        = .ok out ∧
      jget (jget (some out) "hookSpecificOutput") "permissionDecision" =
        some (.str "allow") := by
  exact ⟨by omega, c10_allow_beats_deny_floor
    [("safetyScore", .num 15), ("threshold", .num 10)] 15 10
    (Or.inr rfl) (Or.inr rfl) (by omega)⟩

/-- C7: the PermissionRequest formatter outputs behavior allow exactly when
autoApprove is truthy; otherwise behavior deny with a message embedding the
safetyScore and threshold (both defaulting to 0) and a string reasoning
truncated to its first 1000 characters, and the decision carries
interrupt=true exactly when the interrupt field is truthy. -/
theorem c7_permission_binary (result : PyDict) :
    (truthyO (dictGet result "autoApprove") = true →
      jget (jget (jget (some (format_permission_output result)) "hookSpecificOutput")
        "decision") "behavior" = some (.str "allow")) ∧
    (truthyO (dictGet result "autoApprove") = false →
      jget (jget (jget (some (format_permission_output result)) "hookSpecificOutput")
        "decision") "behavior" = some (.str "deny") ∧
      (∀ sc thr : Int, ∀ s : String,
        numField result "safetyScore" 0 sc → numField result "threshold" 0 thr →
        dictGet result "reasoning" = some (.str s) →
        jget (jget (jget (some (format_permission_output result)) "hookSpecificOutput")
          "decision") "message" =
          some (.str ("Safety score " ++ toString sc ++ " below threshold " ++
            toString thr ++ ". Reason: " ++ pySlice s 1000))) ∧
      jget (jget (jget (some (format_permission_output result)) "hookSpecificOutput")
        "decision") "interrupt" =
        (if truthyO (dictGet result "interrupt") then some (.bool true) else none)) := by
  constructor
  · intro ha
    simp [format_permission_output, ha, jget, dictGet_cons, dictGet_nil]
  · intro ha
    refine ⟨?_, ?_, ?_⟩
    · by_cases hi : truthyO (dictGet result "interrupt") <;>
        simp [format_permission_output, ha, hi, jget, dictGet_cons, dictGet_nil, dictSet]
    · intro sc thr s hsc hthr hr
      have e₁ := dictGetD_of_numField result "safetyScore" 0 sc hsc
      have e₂ := dictGetD_of_numField result "threshold" 0 thr hthr
      have e₃ : dictGetD result "reasoning" (.str "Denied") = .str s := by
        simp [dictGetD, hr]
      by_cases hi : truthyO (dictGet result "interrupt") <;>
        simp [format_permission_output, ha, hi, e₁, e₂, e₃, pyStr, jget,
          dictGet_cons, dictGet_nil, dictSet]
    · by_cases hi : truthyO (dictGet result "interrupt") <;>
        simp [format_permission_output, ha, hi, jget, dictGet_cons, dictGet_nil, dictSet]

/-- Witness for C7: autoApprove absent, score 10, a 2000-character reasoning
and truthy interrupt give deny, the message with the reasoning cut to its
first 1000 characters, and interrupt true. -/
theorem c7_permission_binary_witness :
    jget (jget (jget (some (format_permission_output
      [("safetyScore", .num 10),
       ("reasoning", .str (String.mk (List.replicate 2000 'x'))),
       ("interrupt", .bool true)])) "hookSpecificOutput") "decision") "behavior" =
      some (.str "deny") ∧
    jget (jget (jget (some (format_permission_output
      [("safetyScore", .num 10),
       ("reasoning", .str (String.mk (List.replicate 2000 'x'))),
       ("interrupt", .bool true)])) "hookSpecificOutput") "decision") "message" =
      some (.str ("Safety score 10 below threshold 0. Reason: " ++
        String.mk (List.replicate 1000 'x'))) ∧
    jget (jget (jget (some (format_permission_output
      [("safetyScore", .num 10),
       ("reasoning", .str (String.mk (List.replicate 2000 'x'))),
       ("interrupt", .bool true)])) "hookSpecificOutput") "decision") "interrupt" =
      some (.bool true) := by
  have h := c7_permission_binary
    [("safetyScore", .num 10),
     ("reasoning", .str (String.mk (List.replicate 2000 'x'))),
     ("interrupt", .bool true)]
  obtain ⟨hb, hm, hi⟩ := h.2 rfl
  refine ⟨hb, ?_, ?_⟩
  · rw [hm 10 0 (String.mk (List.replicate 2000 'x')) (Or.inr rfl) (Or.inl ⟨rfl, rfl⟩) rfl]
    have hcut : pySlice (String.mk (List.replicate 2000 'x')) 1000 =
        String.mk (List.replicate 1000 'x') := by
      rw [pySlice, show (String.mk (List.replicate 2000 'x')).toList
            = List.replicate 2000 'x' from rfl, List.take_replicate]
      norm_num
    rw [hcut]
    rfl
  · rw [hi]
    rfl

theorem utf8ByteSize_mk_replicate (n : Nat) (c : Char) :
    (String.mk (List.replicate n c)).utf8ByteSize = n * c.utf8Size := by
  show String.utf8ByteSize.go (List.replicate n c) = n * c.utf8Size
  induction n with
  | zero => rw [Nat.zero_mul]; rfl
  | succ n ih =>
    rw [List.replicate_succ]
    show String.utf8ByteSize.go (List.replicate n c) + c.utf8Size = (n + 1) * c.utf8Size
    rw [ih]
    ring

theorem run_hook_refused_of_read_ok (u k ev : String) (fmt : Option FormatFn)
    (stdin : String) (parse : String → Option JValue) (d : PyDict)
    (hread : (read_hook_input u stdin parse).result = .ok d) :
    (run_hook u k ev fmt stdin parse .refused).exitCode = 0 ∧
    (run_hook u k ev fmt stdin parse .refused).requests.length = 1 := by
  simp [run_hook, hread, send_to_analyzer, handleError]

/-- Counterexample to C5 as stated: a stream of 500,001 two-byte characters
supplies 1,000,002 UTF-8 bytes, more than 1,000,000, yet its text-mode read
yields only 500,001 code points, so the size check passes: the hook attempts
JSON parsing, performs its network call and exits 0 instead of terminating
with exit code 1 before parsing. -/
theorem c5_byte_cap_counterexample :
    (String.mk (List.replicate 500001 'é')).utf8ByteSize > MAX_INPUT_SIZE ∧
    (String.mk (List.replicate 500001 'é')).length ≤ MAX_INPUT_SIZE ∧
    (run_hook "http://localhost:5050/api/analyze" "" "Stop" (some .logOnly)
      (String.mk (List.replicate 500001 'é')) (fun _ => some (.obj []))
      .refused).parseAttempted = true ∧
    (run_hook "http://localhost:5050/api/analyze" "" "Stop" (some .logOnly)
      (String.mk (List.replicate 500001 'é')) (fun _ => some (.obj []))
      .refused).exitCode = 0 ∧
    (run_hook "http://localhost:5050/api/analyze" "" "Stop" (some .logOnly)
      (String.mk (List.replicate 500001 'é')) (fun _ => some (.obj []))
      .refused).requests.length = 1 := by
  have hv : validate_service_url "http://localhost:5050/api/analyze" = true := by decide
  have hbytes : (String.mk (List.replicate 500001 'é')).utf8ByteSize > MAX_INPUT_SIZE := by
    rw [utf8ByteSize_mk_replicate, show Char.utf8Size 'é' = 2 from by decide]
    norm_num [MAX_INPUT_SIZE]
  have hlen : (String.mk (List.replicate 500001 'é')).length ≤ MAX_INPUT_SIZE := by
    rw [length_mk, List.length_replicate]
    norm_num [MAX_INPUT_SIZE]
  have hread : (read_hook_input "http://localhost:5050/api/analyze"
      (String.mk (List.replicate 500001 'é')) (fun _ => some (.obj []))).result
      = .ok [] := by
    rw [read_hook_input_of_validated "http://localhost:5050/api/analyze"
      (String.mk (List.replicate 500001 'é')) (fun _ => some (.obj [])) []
      hv hlen rfl]
    rfl
  obtain ⟨he, hr⟩ := run_hook_refused_of_read_ok "http://localhost:5050/api/analyze"
    "" "Stop" (some .logOnly) (String.mk (List.replicate 500001 'é'))
    (fun _ => some (.obj [])) [] hread
  have hpa : (run_hook "http://localhost:5050/api/analyze" "" "Stop" (some .logOnly)
      (String.mk (List.replicate 500001 'é')) (fun _ => some (.obj []))
      .refused).parseAttempted = true := by
    rw [run_hook_parseAttempted]
    exact read_parseAttempted_of_fits "http://localhost:5050/api/analyze"
      (String.mk (List.replicate 500001 'é')) (fun _ => some (.obj [])) hv hlen
  exact ⟨hbytes, hlen, hpa, he, hr⟩

end ClaudeObserver
